import Mathlib

/-!
Verification of the `serve` command of securesign/fulcio (cmd/app/serve.go)
against its natural-language specification.

The Go program is shallowly embedded: the flag/viper state observed by
`runServeCmd` becomes a `Settings` record, external effects (filesystem,
library constructors) become an `Env` record of functions, and the startup
sequence of `runServeCmd` becomes a total function returning
`Except String ServerRun` where `Except.error` models `log.Logger.Fatal`
(which terminates the process with a non-zero exit before any server serves).
-/

namespace Fulcio

/-- The `defaultConfigPath` constant from serve.go. -/
def defaultConfigPath : String := "/etc/fulcio-config/config.yaml"

/-- The protobuf-specs `PublicKeyDetails` enum values relevant to the serve
command: the seven values listed in `newServeCmd` (serve.go lines 120-128)
together with neighbouring values of the same enum (RSA-PSS, pre-hashed
Ed25519) that are not in the default list. -/
inductive PublicKeyDetails where
  | PKIX_ECDSA_P256_SHA_256
  | PKIX_ECDSA_P384_SHA_384
  | PKIX_ECDSA_P521_SHA_512
  | PKIX_RSA_PKCS1V15_2048_SHA256
  | PKIX_RSA_PKCS1V15_3072_SHA256
  | PKIX_RSA_PKCS1V15_4096_SHA256
  | PKIX_RSA_PSS_2048_SHA256
  | PKIX_RSA_PSS_3072_SHA256
  | PKIX_RSA_PSS_4096_SHA256
  | PKIX_ED25519
  | PKIX_ED25519_PH
deriving DecidableEq, Repr, Fintype

/-- Key algorithm family of a `PublicKeyDetails` value (its meaning in the
protobuf-specs registry): ECDSA over a NIST curve of the given bit size,
RSA PKCS#1 v1.5 or RSA-PSS with the given modulus size, or Ed25519
(pure or pre-hashed). -/
inductive SigKeyAlg where
  | ecdsaNist (curveBits : Nat)
  | rsaPkcs1v15 (modulusBits : Nat)
  | rsaPss (modulusBits : Nat)
  | ed25519pure
  | ed25519prehashed
deriving DecidableEq, Repr

inductive HashAlg where
  | sha256
  | sha384
  | sha512
deriving DecidableEq, Repr

/-- Key algorithm denoted by each enum value. -/
def pkdKeyAlg : PublicKeyDetails → SigKeyAlg
  | .PKIX_ECDSA_P256_SHA_256 => .ecdsaNist 256
  | .PKIX_ECDSA_P384_SHA_384 => .ecdsaNist 384
  | .PKIX_ECDSA_P521_SHA_512 => .ecdsaNist 521
  | .PKIX_RSA_PKCS1V15_2048_SHA256 => .rsaPkcs1v15 2048
  | .PKIX_RSA_PKCS1V15_3072_SHA256 => .rsaPkcs1v15 3072
  | .PKIX_RSA_PKCS1V15_4096_SHA256 => .rsaPkcs1v15 4096
  | .PKIX_RSA_PSS_2048_SHA256 => .rsaPss 2048
  | .PKIX_RSA_PSS_3072_SHA256 => .rsaPss 3072
  | .PKIX_RSA_PSS_4096_SHA256 => .rsaPss 4096
  | .PKIX_ED25519 => .ed25519pure
  | .PKIX_ED25519_PH => .ed25519prehashed

/-- Digest paired with each enum value (pure Ed25519 hashes internally,
so it carries no separate digest choice). -/
def pkdHash : PublicKeyDetails → Option HashAlg
  | .PKIX_ECDSA_P256_SHA_256 => some .sha256
  | .PKIX_ECDSA_P384_SHA_384 => some .sha384
  | .PKIX_ECDSA_P521_SHA_512 => some .sha512
  | .PKIX_RSA_PKCS1V15_2048_SHA256 => some .sha256
  | .PKIX_RSA_PKCS1V15_3072_SHA256 => some .sha256
  | .PKIX_RSA_PKCS1V15_4096_SHA256 => some .sha256
  | .PKIX_RSA_PSS_2048_SHA256 => some .sha256
  | .PKIX_RSA_PSS_3072_SHA256 => some .sha256
  | .PKIX_RSA_PSS_4096_SHA256 => some .sha256
  | .PKIX_ED25519 => none
  | .PKIX_ED25519_PH => some .sha512

/-- The argument `newServeCmd` passes to `buildDefaultClientSigningAlgorithms`
(serve.go lines 120-128): the default allow-list of client signing
algorithms, as `PublicKeyDetails` values. -/
def defaultClientSigningAlgorithmDetails : List PublicKeyDetails :=
  [ .PKIX_ECDSA_P256_SHA_256,
    .PKIX_ECDSA_P384_SHA_384,
    .PKIX_ECDSA_P521_SHA_512,
    .PKIX_RSA_PKCS1V15_2048_SHA256,
    .PKIX_RSA_PKCS1V15_3072_SHA256,
    .PKIX_RSA_PKCS1V15_4096_SHA256,
    .PKIX_ED25519 ]

/-- The set of algorithms the specification claims as default, written from
the spec words via the semantic attributes: ECDSA P-256/P-384/P-521 with the
matching SHA-2 hash, RSA PKCS#1 v1.5 with 2048/3072/4096-bit keys and
SHA-256, and Ed25519. -/
def claimedDefaultAlgorithm (a : PublicKeyDetails) : Bool :=
  match pkdKeyAlg a, pkdHash a with
  | .ecdsaNist 256, some .sha256 => true
  | .ecdsaNist 384, some .sha384 => true
  | .ecdsaNist 521, some .sha512 => true
  | .rsaPkcs1v15 2048, some .sha256 => true
  | .rsaPkcs1v15 3072, some .sha256 => true
  | .rsaPkcs1v15 4096, some .sha256 => true
  | .ed25519pure, _ => true
  | _, _ => false

/-- The viper state `runServeCmd` reads after `BindPFlags`: for each string
flag its effective value, and for the flags queried through `viper.IsSet`
also whether the key was set. Defaults mirror the flag declarations in
`newServeCmd` (serve.go lines 89-128). -/
structure Settings where
  ca : String
  hsmCarootId : String
  hsmCarootIdSet : Bool
  gcpPrivateCaParent : String
  gcpPrivateCaParentSet : Bool
  filecaCert : String
  filecaCertSet : Bool
  filecaKey : String
  filecaKeySet : Bool
  filecaKeyPasswd : String
  filecaKeyPasswdSet : Bool
  filecaWatch : Bool
  kmsResource : String
  kmsResourceSet : Bool
  kmsCertChainPath : String
  kmsCertChainPathSet : Bool
  tinkKmsResource : String
  tinkKmsResourceSet : Bool
  tinkCertChainPath : String
  tinkCertChainPathSet : Bool
  tinkKeysetPath : String
  tinkKeysetPathSet : Bool
  awsHsmRootCaPath : String
  awsHsmRootCaPathSet : Bool
  pkcs11ConfigPath : String
  ctLogUrl : String
  ctLogPublicKeyPath : String
  ctLogTlsCaCert : String
  configPath : String
  clientSigningAlgorithms : List String
deriving Repr

/-- The flag defaults declared in `newServeCmd`: every backend companion flag
is unset, `ct-log-url` defaults to the test log URL, `config-path` to
`defaultConfigPath`. The default of `client-signing-algorithms` is the
string rendering (by the sigstore library formatter, not part of src/) of
`defaultClientSigningAlgorithmDetails`; the strings themselves are not
needed here and are left abstract as the empty list. -/
def defaultServeSettings : Settings where
  ca := ""
  hsmCarootId := ""
  hsmCarootIdSet := false
  gcpPrivateCaParent := ""
  gcpPrivateCaParentSet := false
  filecaCert := ""
  filecaCertSet := false
  filecaKey := ""
  filecaKeySet := false
  filecaKeyPasswd := ""
  filecaKeyPasswdSet := false
  filecaWatch := true
  kmsResource := ""
  kmsResourceSet := false
  kmsCertChainPath := ""
  kmsCertChainPathSet := false
  tinkKmsResource := ""
  tinkKmsResourceSet := false
  tinkCertChainPath := ""
  tinkCertChainPathSet := false
  tinkKeysetPath := ""
  tinkKeysetPathSet := false
  awsHsmRootCaPath := ""
  awsHsmRootCaPathSet := false
  pkcs11ConfigPath := "config/crypto11.conf"
  ctLogUrl := "http://localhost:6962/test"
  ctLogPublicKeyPath := ""
  ctLogTlsCaCert := ""
  configPath := defaultConfigPath
  clientSigningAlgorithms := []

/-- Outcome of the flag-validation switch at the top of `runServeCmd`
(serve.go lines 174-222); `fatal` models `log.Logger.Fatal`, which exits the
process with a non-zero status. -/
inductive ValidationResult where
  | passed
  | fatal (msg : String)
deriving DecidableEq, Repr

/-- The `switch viper.GetString("ca")` validation block of `runServeCmd`
(serve.go lines 174-222), case for case in source order; a Go switch on a
string is a sequential comparison against the case literals. -/
def validateCAFlags (s : Settings) : ValidationResult :=
  if s.ca = "" then
    .fatal "required flag ca not set"
  else if s.ca = "pkcs11ca" then
    if !s.hsmCarootIdSet then .fatal "hsm-caroot-id must be set when using pkcs11ca"
    else .passed
  else if s.ca = "googleca" then
    if !s.gcpPrivateCaParentSet then .fatal "gcp_private_ca_parent must be set when using googleca"
    else .passed
  else if s.ca = "fileca" then
    if !s.filecaCertSet then .fatal "fileca-cert must be set to certificate path when using fileca"
    else if !s.filecaKeySet then .fatal "fileca-key must be set to private key path when using fileca"
    else if !s.filecaKeyPasswdSet then .fatal "fileca-key-passwd must be set to encryption password for private key file when using fileca"
    else .passed
  else if s.ca = "kmsca" then
    if !s.kmsResourceSet then .fatal "kms-resource must be set when using kmsca"
    else if !s.kmsCertChainPathSet then .fatal "kms-cert-chain-path must be set when using kmsca"
    else .passed
  else if s.ca = "tinkca" then
    if !s.tinkKmsResourceSet then .fatal "tink-kms-resource must be set when using tinkca"
    else if !s.tinkCertChainPathSet then .fatal "tink-cert-chain-path must be set when using tinkca"
    else if !s.tinkKeysetPathSet then .fatal "tink-keyset-path must be set when using tinkca"
    else .passed
  else if s.ca = "ephemeralca" then
    .passed
  else
    .fatal "is not a valid selection. Try: pkcs11ca, googleca, fileca, or ephemeralca"

/-- The six recognized CA backends of the construction switch
(serve.go lines 258-296). -/
inductive CABackend where
  | googleca
  | pkcs11ca
  | fileca
  | ephemeralca
  | kmsca
  | tinkca
deriving DecidableEq, Repr

/-- Which branch of the CA-construction `switch viper.GetString("ca")`
(serve.go lines 258-296) a given `ca` value selects; `none` is the
`default:` branch. Cases in source order. -/
def caSwitchBranch (ca : String) : Option CABackend :=
  if ca = "googleca" then some .googleca
  else if ca = "pkcs11ca" then some .pkcs11ca
  else if ca = "fileca" then some .fileca
  else if ca = "ephemeralca" then some .ephemeralca
  else if ca = "kmsca" then some .kmsca
  else if ca = "tinkca" then some .tinkca
  else none

/-- External collaborators of `runServeCmd`, abstracted as pure oracles:
the filesystem (`os.Stat` existence, `os.ReadFile` with `none` for error)
and the out-of-repo library constructors, each reported as succeeding or
failing on its arguments. -/
structure Env where
  fileExists : String → Bool
  readFile : String → Option String
  loadCertsPEM : String → Option (List String)
  appendCertsPEMOk : String → Bool
  loadConfigOk : String → Bool
  parseAlg : String → Option PublicKeyDetails
  newAlgRegistryOk : List PublicKeyDetails → Bool
  newGoogleCAOk : String → Bool
  newPKCS11CAOk : String → String → Option String → Bool
  newFileCAOk : String → String → String → Bool → Bool
  newEphemeralCAOk : Bool
  newKMSCAOk : String → List String → Bool
  newTinkCAOk : String → String → String → Bool
  ctClientNewOk : String → Bool

/-- Go `strings.TrimSuffix`: removes the suffix when present, otherwise
returns the string unchanged (written over the character list so that it
evaluates by kernel reduction). -/
def trimSuffix (s sfx : String) : String :=
  if sfx.data.isSuffixOf s.data then
    String.mk (s.data.take (s.data.length - sfx.data.length))
  else s

/-- The config-path fallback of `runServeCmd` (serve.go lines 244-250):
when `--config-path` equals the built-in default and no file exists there,
`.yaml` is replaced by `.json`; the result is what is passed to
`config.Load`. -/
def effectiveConfigPath (s : Settings) (env : Env) : String :=
  let cp := s.configPath
  if cp = defaultConfigPath then
    if !env.fileExists cp then trimSuffix cp ".yaml" ++ ".json" else cp
  else cp

/-- Error message of the `default:` branch of the CA-construction switch
(serve.go line 295). -/
def invalidCAValueMsg : String := "invalid value for configured CA"

/-- The CA-construction `switch viper.GetString("ca")` of `runServeCmd`
(serve.go lines 258-296) followed by the `if err != nil { Fatal }` at line
297: each branch calls its backend constructor (abstracted in `Env`); the
`kmsca` branch first reads and PEM-decodes the certificate chain file, with
its own in-branch fatal calls; the `default:` branch produces the
`invalid value for configured CA` error. -/
def constructCABackend (s : Settings) (env : Env) : Except String CABackend :=
  if s.ca = "googleca" then
    if env.newGoogleCAOk s.gcpPrivateCaParent then .ok .googleca
    else .error "creating googleca failed"
  else if s.ca = "pkcs11ca" then
    let caPath := if s.awsHsmRootCaPathSet then some s.awsHsmRootCaPath else none
    if env.newPKCS11CAOk s.pkcs11ConfigPath s.hsmCarootId caPath then .ok .pkcs11ca
    else .error "creating pkcs11ca failed"
  else if s.ca = "fileca" then
    if env.newFileCAOk s.filecaCert s.filecaKey s.filecaKeyPasswd s.filecaWatch then .ok .fileca
    else .error "creating fileca failed"
  else if s.ca = "ephemeralca" then
    if env.newEphemeralCAOk then .ok .ephemeralca
    else .error "creating ephemeralca failed"
  else if s.ca = "kmsca" then
    match env.readFile s.kmsCertChainPath with
    | none => .error "error reading the kms certificate chain"
    | some data =>
      match env.loadCertsPEM data with
      | none => .error "error loading the PEM certificates from the kms certificate chain"
      | some certs =>
        if env.newKMSCAOk s.kmsResource certs then .ok .kmsca
        else .error "creating kmsca failed"
  else if s.ca = "tinkca" then
    if env.newTinkCAOk s.tinkKmsResource s.tinkKeysetPath s.tinkCertChainPath then .ok .tinkca
    else .error "creating tinkca failed"
  else
    .error invalidCAValueMsg

/-- The `jsonclient.Options` passed to `ctclient.New`: only the optional
pinned public key matters here (the logger adaptor carries no data). -/
structure JsonClientOpts where
  publicKey : Option String
deriving DecidableEq, Repr

/-- The `http.Client` built for CT submission: its timeout in seconds and,
when `ct-log.tls-ca-cert` is set, the custom root pool (identified by the
PEM bytes appended to it). -/
structure HTTPClientCfg where
  timeoutSec : Nat
  customRootCAs : Option String
deriving DecidableEq, Repr

/-- The constructed `ctclient.LogClient`: the log URL, the HTTP client it
uses, and its options. -/
structure CTClientCfg where
  logURL : String
  httpClient : HTTPClientCfg
  opts : JsonClientOpts
deriving DecidableEq, Repr

/-- serve.go lines 307-314: when `ct-log-public-key-path` is non-empty the
file is read (fatal on error) and its bytes become `opts.PublicKey`;
otherwise the options carry no public key. -/
def ctPublicKeyOpt (s : Settings) (env : Env) : Except String (Option String) :=
  if s.ctLogPublicKeyPath = "" then .ok none
  else
    match env.readFile s.ctLogPublicKeyPath with
    | none => .error "reading ct-log-public-key-path failed"
    | some pemPubKey => .ok (some pemPubKey)

/-- serve.go lines 315-340: the HTTP client for the CT log; with
`ct-log.tls-ca-cert` set, the certificate is read (fatal on error),
appended to a fresh pool (fatal when the PEM holds no certificate) and the
client gets a 30-second timeout plus the custom transport; otherwise the
client gets just the 30-second timeout. -/
def ctHTTPClient (s : Settings) (env : Env) : Except String HTTPClientCfg :=
  if s.ctLogTlsCaCert = "" then
    .ok { timeoutSec := 30, customRootCAs := none }
  else
    match env.readFile s.ctLogTlsCaCert with
    | none => .error "reading ct-log.tls-ca-cert failed"
    | some tlsCaCert =>
      if env.appendCertsPEMOk tlsCaCert then
        .ok { timeoutSec := 30, customRootCAs := some tlsCaCert }
      else .error "failed to append TLS CA certificate"

/-- serve.go lines 302-345: `ctClient` stays `nil` (`none`) when
`ct-log-url` is empty; otherwise the options and HTTP client are built and
`ctclient.New` is called (fatal on error). -/
def buildCTClient (s : Settings) (env : Env) : Except String (Option CTClientCfg) :=
  if s.ctLogUrl = "" then .ok none
  else
    match ctPublicKeyOpt s env with
    | .error e => .error e
    | .ok pubKey =>
      match ctHTTPClient s env with
      | .error e => .error e
      | .ok hc =>
        if env.ctClientNewOk s.ctLogUrl then
          .ok (some { logURL := s.ctLogUrl, httpClient := hc, opts := { publicKey := pubKey } })
        else .error "creating ct log client failed"

/-- A unary gRPC request, reduced to the observation the transport limit and
the interceptor chain act on. -/
structure UnaryRequest where
  payloadSize : Nat
deriving DecidableEq, Repr

/-- Result of handling one unary RPC: a normal response, a gRPC error
response, or a Go panic escaping the handler. -/
inductive HandlerOutcome where
  | ok (respSize : Nat)
  | err (code : String)
  | panicked (msg : String)
deriving DecidableEq, Repr

def UnaryHandler : Type := UnaryRequest → HandlerOutcome

def UnaryInterceptor : Type := UnaryHandler → UnaryHandler

/-- Embedding of `grpc_recovery.UnaryServerInterceptor` with the server's
`panicRecoveryHandler` (serve.go line 466). Modelled from the spec:
`panicRecoveryHandler` lives in pkg/server, which is not under src/; per the
spec, the per-request recovery boundary converts any unchecked failure into
an `internal` error and keeps the server running. -/
def recoveryInterceptor : UnaryInterceptor := fun h req =>
  match h req with
  | .panicked _ => .err "internal"
  | o => o

/-- Embedding of `middleware.UnaryRequestID` (serve.go line 467): attaches request-id
metadata and invokes the next handler; its outcome is the inner outcome. -/
def requestIdInterceptor : UnaryInterceptor := fun h req => h req

/-- Embedding of `grpc_zap.UnaryServerInterceptor` (serve.go line 468): logs around the
next handler; its outcome is the inner outcome. -/
def zapLoggingInterceptor : UnaryInterceptor := fun h req => h req

/-- Embedding of `PassFulcioConfigThruContext(cfg)` (serve.go line 469): stores the
config in the request context and invokes the next handler. -/
def passFulcioConfigInterceptor : UnaryInterceptor := fun h req => h req

/-- Embedding of `grpc_prometheus.UnaryServerInterceptor` (serve.go line 470): records
metrics around the next handler; its outcome is the inner outcome. -/
def prometheusInterceptor : UnaryInterceptor := fun h req => h req

/-- Embedding of `grpcmw.ChainUnaryServer`: composes the interceptors so that the first
of the list is outermost. -/
def chainUnaryServer (l : List UnaryInterceptor) (h : UnaryHandler) : UnaryHandler :=
  l.foldr (fun i acc => i acc) h

/-- The interceptor chain installed in `StartDuplexServer` (serve.go lines
465-471), in source order: recovery first, then request-id, zap logging,
config propagation, prometheus. -/
def middlewareChain : List UnaryInterceptor :=
  [ recoveryInterceptor,
    requestIdInterceptor,
    zapLoggingInterceptor,
    passFulcioConfigInterceptor,
    prometheusInterceptor ]

/-- The constant `maxMsgSize int64 = 1 << 22` (serve.go line 147). -/
def maxMsgSize : Int := 1 <<< 22

/-- The server options `StartDuplexServer` passes to `duplex.New`
(serve.go lines 458-474) that the claims observe: the unary interceptor
chain and `grpc.MaxRecvMsgSize(int(maxMsgSize))`. -/
structure DuplexConfig where
  unaryInterceptorChain : List UnaryInterceptor
  maxRecvMsgSize : Nat

def duplexConfig : DuplexConfig where
  unaryInterceptorChain := middlewareChain
  maxRecvMsgSize := maxMsgSize.toNat

/-- Modelled from gRPC's documented `MaxRecvMsgSize` semantics (the grpc-go
library is not under src/): a received message whose size exceeds the
configured limit is rejected by the transport before any handler or
interceptor runs. -/
def transportAcceptsMessage (maxRecv : Nat) (req : UnaryRequest) : Bool :=
  req.payloadSize ≤ maxRecv

/-- Embedding of `signature.ParseSignatureAlgorithmFlag` applied to each entry of
`client-signing-algorithms` (serve.go lines 227-235); the first failing
entry is fatal. -/
def parseAlgList (env : Env) : List String → Except String (List PublicKeyDetails)
  | [] => .ok []
  | a :: rest =>
    match env.parseAlg a with
    | none => .error "parsing client-signing-algorithms entry failed"
    | some v =>
      match parseAlgList env rest with
      | .error e => .error e
      | .ok vs => .ok (v :: vs)

/-- What a completed startup of `runServeCmd` has built by the time a server
begins serving. -/
structure ServerRun where
  caBackend : CABackend
  algorithms : List PublicKeyDetails
  ctClient : Option CTClientCfg
  duplex : DuplexConfig

/-- The startup sequence of `runServeCmd` (serve.go lines 159-358) up to the
point where a server starts serving, in source order: flag validation,
client-signing-algorithm parsing and registry construction, config-path
fallback and `config.Load`, CA construction, CT client construction.
`Except.error` models `log.Logger.Fatal`: the process exits with non-zero
status and no server ever serves. Logger setup, metrics and the listeners
themselves carry no data relevant to the claims. -/
def runServe (s : Settings) (env : Env) : Except String ServerRun :=
  match validateCAFlags s with
  | .fatal msg => .error msg
  | .passed =>
    match parseAlgList env s.clientSigningAlgorithms with
    | .error e => .error e
    | .ok algs =>
      if !env.newAlgRegistryOk algs then .error "error loading client-signing-algorithms"
      else
        if !env.loadConfigOk (effectiveConfigPath s env) then .error "error loading config-path"
        else
          match constructCABackend s env with
          | .error e => .error e
          | .ok ca =>
            match buildCTClient s env with
            | .error e => .error e
            | .ok ct =>
              .ok { caBackend := ca, algorithms := algs, ctClient := ct, duplex := duplexConfig }

/-- Modelled from the spec: an issued certificate as the issuance handler
(pkg/server, not under src/) assembles it per spec section 4.G — validity
`[now, now + window]`, an optional SCT-list extension, and the poison
extension only on the precertificate, never on the final certificate. -/
structure IssuedCertificate where
  notBeforeSec : Nat
  notAfterSec : Nat
  sctListExtension : Option (List Nat)
  poisonExtension : Bool
deriving DecidableEq, Repr

/-- Modelled from the spec: the issuance response
`{ certificate, chain, sct }`; the sct field is omitted when CT is
disabled. -/
structure IssuanceResponse where
  cert : IssuedCertificate
  sct : Option (List Nat)
deriving DecidableEq, Repr

/-- Modelled from the spec: the issuance handler (pkg/server, not under
src/). With a CT client present, the precertificate is submitted and the
returned SCT bytes are embedded in the final certificate and the response;
with no CT client, the log-submission step is skipped, the non-poisoned
body is signed once, and the response carries no SCT. The validity window
is the CA's configured window, bounded by 10 minutes. -/
def issueCertificate (ct : Option CTClientCfg) (now validityWindowSec : Nat)
    (sctBytes : List Nat) : IssuanceResponse :=
  match ct with
  | none =>
    { cert := { notBeforeSec := now, notAfterSec := now + validityWindowSec,
                sctListExtension := none, poisonExtension := false },
      sct := none }
  | some _ =>
    { cert := { notBeforeSec := now, notAfterSec := now + validityWindowSec,
                sctListExtension := some sctBytes, poisonExtension := false },
      sct := some sctBytes }

/-- Whether a handler outcome is an escaped panic. -/
def HandlerOutcome.isPanic : HandlerOutcome → Bool
  | .panicked _ => true
  | _ => false

/-! ### Concrete fixtures for witness instantiation -/

/-- An environment in which every external collaborator succeeds. -/
def allOkEnv : Env where
  fileExists := fun _ => true
  readFile := fun _ => some "PEM BYTES"
  loadCertsPEM := fun _ => some ["cert0"]
  appendCertsPEMOk := fun _ => true
  loadConfigOk := fun _ => true
  parseAlg := fun _ => some .PKIX_ED25519
  newAlgRegistryOk := fun _ => true
  newGoogleCAOk := fun _ => true
  newPKCS11CAOk := fun _ _ _ => true
  newFileCAOk := fun _ _ _ _ => true
  newEphemeralCAOk := true
  newKMSCAOk := fun _ _ => true
  newTinkCAOk := fun _ _ _ => true
  ctClientNewOk := fun _ => true

/-- Like `allOkEnv` except that no file exists (for the config-path fallback). -/
def noFileEnv : Env := { allOkEnv with fileExists := fun _ => false }

/-- Default settings with `--ca ephemeralca`, the one backend needing no
companion flag. -/
def ephemeralSettings : Settings := { defaultServeSettings with ca := "ephemeralca" }

/-- Default settings with `--ca ephemeralca` and an empty `--ct-log-url`. -/
def ephemeralNoCTSettings : Settings := { ephemeralSettings with ctLogUrl := "" }

/-- The server state `runServe ephemeralSettings allOkEnv` produces. -/
def ephemeralRun : ServerRun where
  caBackend := .ephemeralca
  algorithms := []
  ctClient := some
    { logURL := "http://localhost:6962/test",
      httpClient := { timeoutSec := 30, customRootCAs := none },
      opts := { publicKey := none } }
  duplex := duplexConfig

/-- The server state `runServe ephemeralNoCTSettings allOkEnv` produces. -/
def ephemeralNoCTRun : ServerRun where
  caBackend := .ephemeralca
  algorithms := []
  ctClient := none
  duplex := duplexConfig

/-- A handler that always panics. -/
def panickingHandler : UnaryHandler := fun _ => .panicked "runtime error"

/-- Settings with `--ca ephemeralca`, a pinned CT log public key and a custom TLS CA
for the CT log connection. -/
def ctPinnedSettings : Settings :=
  { ephemeralSettings with
    ctLogPublicKeyPath := "/etc/ct/pubkey.pem",
    ctLogTlsCaCert := "/etc/ct/tls-ca.pem" }

/-- The CT client `buildCTClient ctPinnedSettings allOkEnv` constructs. -/
def ctPinnedClient : CTClientCfg where
  logURL := "http://localhost:6962/test"
  httpClient := { timeoutSec := 30, customRootCAs := some "PEM BYTES" }
  opts := { publicKey := some "PEM BYTES" }

/-- Whether the startup sequence ended in `log.Logger.Fatal` (process exit
with a non-zero status) instead of reaching a serving server. -/
def startupFatal : Except String ServerRun → Bool
  | .error _ => true
  | .ok _ => false

/-! ### Helper lemmas -/

/-- Both branches of the HTTP-client construction for the CT log set a
30-second timeout. -/
theorem ctHTTPClient_timeout (s : Settings) (env : Env) (hc : HTTPClientCfg)
    (h : ctHTTPClient s env = .ok hc) : hc.timeoutSec = 30 := by
  unfold ctHTTPClient at h
  split at h
  · injection h with h2
    subst h2
    rfl
  · split at h
    · simp at h
    · split at h
      · injection h with h2
        subst h2
        rfl
      · simp at h

/-- The pinned public key in the CT client options is exactly the file
contents when `ct-log-public-key-path` is non-empty, and absent when it is
empty. -/
theorem ctPublicKeyOpt_spec (s : Settings) (env : Env) (pk : Option String)
    (h : ctPublicKeyOpt s env = .ok pk) :
    (s.ctLogPublicKeyPath = "" → pk = none)
    ∧ (s.ctLogPublicKeyPath ≠ "" →
        ∃ pem, env.readFile s.ctLogPublicKeyPath = some pem ∧ pk = some pem) := by
  unfold ctPublicKeyOpt at h
  split at h
  · rename_i hempty
    injection h with h2
    subst h2
    exact ⟨fun _ => rfl, fun hne => absurd hempty hne⟩
  · rename_i hne
    split at h
    · simp at h
    · rename_i pem hread
      injection h with h2
      subst h2
      exact ⟨fun he => absurd he hne, fun _ => ⟨pem, hread, rfl⟩⟩

/-- Shape of a successfully constructed CT client: the URL was non-empty
and the client is assembled from the computed HTTP client and options. -/
theorem buildCTClient_some_spec (s : Settings) (env : Env) (c : CTClientCfg)
    (h : buildCTClient s env = .ok (some c)) :
    s.ctLogUrl ≠ ""
    ∧ c.logURL = s.ctLogUrl
    ∧ ctHTTPClient s env = .ok c.httpClient
    ∧ ctPublicKeyOpt s env = .ok c.opts.publicKey := by
  unfold buildCTClient at h
  split at h
  · simp at h
  · rename_i hurl
    split at h
    · simp at h
    · rename_i pubKey hpk
      split at h
      · simp at h
      · rename_i hc hhc
        split at h
        · injection h with h2
          injection h2 with h3
          subst h3
          exact ⟨hurl, rfl, hhc, hpk⟩
        · simp at h

/-- A CT client exists after a non-fatal construction step exactly when
`ct-log-url` is non-empty. -/
theorem buildCTClient_ok_isSome (s : Settings) (env : Env) (ct : Option CTClientCfg)
    (h : buildCTClient s env = .ok ct) : ct.isSome = true ↔ s.ctLogUrl ≠ "" := by
  unfold buildCTClient at h
  split at h
  · rename_i hurl
    injection h with h2
    subst h2
    simp [hurl]
  · rename_i hurl
    split at h
    · simp at h
    · split at h
      · simp at h
      · split at h
        · injection h with h2
          subst h2
          simp [hurl]
        · simp at h

/-- When startup completes, the CT client the server runs with is the one
`buildCTClient` computed from the settings. -/
theorem runServe_ok_ctClient (s : Settings) (env : Env) (run : ServerRun)
    (h : runServe s env = .ok run) : buildCTClient s env = .ok run.ctClient := by
  unfold runServe at h
  repeat' (split at h <;> try simp at h)
  all_goals simp_all
  all_goals (rw [← h])

/-- The validation switch passes exactly when `--ca` names one of the six
backends with its companion flags set. -/
theorem validateCAFlags_passed_char (s : Settings) :
    validateCAFlags s = .passed ↔
      ((s.ca = "pkcs11ca" ∧ s.hsmCarootIdSet = true)
       ∨ (s.ca = "googleca" ∧ s.gcpPrivateCaParentSet = true)
       ∨ (s.ca = "fileca" ∧ s.filecaCertSet = true ∧ s.filecaKeySet = true
            ∧ s.filecaKeyPasswdSet = true)
       ∨ (s.ca = "kmsca" ∧ s.kmsResourceSet = true ∧ s.kmsCertChainPathSet = true)
       ∨ (s.ca = "tinkca" ∧ s.tinkKmsResourceSet = true ∧ s.tinkCertChainPathSet = true
            ∧ s.tinkKeysetPathSet = true)
       ∨ s.ca = "ephemeralca") := by
  unfold validateCAFlags
  split_ifs <;> simp_all

/-! ### Claim theorems -/

/-- C3: The default set of allowed client signing algorithms (the argument
of the `client-signing-algorithms` flag declaration when the operator does
not override it) is exactly ECDSA P-256/SHA-256, P-384/SHA-384,
P-521/SHA-512, RSA PKCS#1 v1.5 with 2048-, 3072- and 4096-bit keys each
with SHA-256, and Ed25519 — no other value of the enum, and no
duplicates. -/
theorem default_client_signing_algorithms_exact :
    (∀ a : PublicKeyDetails,
      a ∈ defaultClientSigningAlgorithmDetails ↔ claimedDefaultAlgorithm a = true)
    ∧ defaultClientSigningAlgorithmDetails.Nodup := by
  decide

/-- C4: For every successfully issued certificate, `NotAfter − NotBefore`
is at most 10 minutes (600 seconds), given that the configured validity
window is within the spec-mandated 10-minute bound. -/
theorem issued_cert_validity_at_most_ten_minutes :
    ∀ (ct : Option CTClientCfg) (now w : Nat) (sctBytes : List Nat),
      w ≤ 600 →
      (issueCertificate ct now w sctBytes).cert.notAfterSec
        - (issueCertificate ct now w sctBytes).cert.notBeforeSec ≤ 600 := by
  intro ct now w sctBytes hw
  cases ct <;> simp [issueCertificate] <;> omega

/-- Witness for C4 at a concrete input: CT disabled, window exactly
10 minutes. -/
theorem issued_cert_validity_at_most_ten_minutes_witness :
    (600 : Nat) ≤ 600 ∧
    (issueCertificate none 17 600 []).cert.notAfterSec
      - (issueCertificate none 17 600 []).cert.notBeforeSec ≤ 600 :=
  ⟨by decide, issued_cert_validity_at_most_ten_minutes none 17 600 [] (by decide)⟩

/-- C10: the duplex gRPC server's maximum receive message size is exactly
4 MiB (`maxMsgSize = 1 <<< 22 = 2^22`), and a request message larger than
that limit is rejected at the transport layer. -/
theorem duplex_max_recv_msg_size_4MiB :
    maxMsgSize = 2 ^ 22
    ∧ duplexConfig.maxRecvMsgSize = 2 ^ 22
    ∧ ∀ req : UnaryRequest, 2 ^ 22 < req.payloadSize →
        transportAcceptsMessage duplexConfig.maxRecvMsgSize req = false := by
  refine ⟨by decide, by decide, ?_⟩
  intro req hreq
  have hmax : duplexConfig.maxRecvMsgSize = 2 ^ 22 := by decide
  simp only [transportAcceptsMessage, hmax, decide_eq_false_iff_not]
  omega

/-- Witness for C10 at a concrete input: a message one byte over 4 MiB is
rejected. -/
theorem duplex_max_recv_msg_size_4MiB_witness :
    2 ^ 22 < (UnaryRequest.mk (2 ^ 22 + 1)).payloadSize ∧
    transportAcceptsMessage duplexConfig.maxRecvMsgSize (UnaryRequest.mk (2 ^ 22 + 1)) = false :=
  ⟨by decide, duplex_max_recv_msg_size_4MiB.2.2 (UnaryRequest.mk (2 ^ 22 + 1)) (by decide)⟩

/-- C7: the panic-recovery interceptor is installed first in the duplex
server's middleware chain; consequently a handler panic is converted into
an `internal` error response, and no outcome of the chained handler is an
escaped panic (the server process survives). -/
theorem recovery_interceptor_first_and_contains_panics :
    duplexConfig.unaryInterceptorChain.head? = some recoveryInterceptor
    ∧ (∀ (h : UnaryHandler) (req : UnaryRequest) (m : String),
        h req = .panicked m →
        chainUnaryServer duplexConfig.unaryInterceptorChain h req = .err "internal")
    ∧ (∀ (h : UnaryHandler) (req : UnaryRequest),
        (chainUnaryServer duplexConfig.unaryInterceptorChain h req).isPanic = false) := by
  refine ⟨rfl, ?_, ?_⟩
  · intro h req m hp
    simp only [duplexConfig, middlewareChain, chainUnaryServer, List.foldr,
      recoveryInterceptor, requestIdInterceptor, zapLoggingInterceptor,
      passFulcioConfigInterceptor, prometheusInterceptor, hp]
  · intro h req
    simp only [duplexConfig, middlewareChain, chainUnaryServer, List.foldr,
      recoveryInterceptor, requestIdInterceptor, zapLoggingInterceptor,
      passFulcioConfigInterceptor, prometheusInterceptor]
    cases h req <;> simp [HandlerOutcome.isPanic]

/-- Witness for C7 at a concrete input: an always-panicking handler yields
the `internal` error response through the chain. -/
theorem recovery_interceptor_first_and_contains_panics_witness :
    panickingHandler ⟨0⟩ = .panicked "runtime error" ∧
    chainUnaryServer duplexConfig.unaryInterceptorChain panickingHandler ⟨0⟩ = .err "internal" :=
  ⟨rfl, recovery_interceptor_first_and_contains_panics.2.1 panickingHandler ⟨0⟩
    "runtime error" rfl⟩

/-- C9: when `config-path` equals the built-in default
`/etc/fulcio-config/config.yaml` and no file exists there, config loading
is retargeted to `/etc/fulcio-config/config.json` before `config.Load`;
with the default path and an existing file, or with any non-default path,
the configured path is used unchanged. -/
theorem config_path_default_json_fallback :
    ∀ (s : Settings) (env : Env),
      (s.configPath = defaultConfigPath ∧ env.fileExists s.configPath = false →
        effectiveConfigPath s env = "/etc/fulcio-config/config.json")
      ∧ (s.configPath = defaultConfigPath ∧ env.fileExists s.configPath = true →
        effectiveConfigPath s env = s.configPath)
      ∧ (s.configPath ≠ defaultConfigPath → effectiveConfigPath s env = s.configPath) := by
  intro s env
  refine ⟨?_, ?_, ?_⟩
  · rintro ⟨h1, h2⟩
    rw [h1] at h2
    simp [effectiveConfigPath, h1, h2]
    decide
  · rintro ⟨h1, h2⟩
    rw [h1] at h2
    simp [effectiveConfigPath, h1, h2]
  · intro h
    simp [effectiveConfigPath, h]

/-- Witness for C9 at a concrete input: default settings and a filesystem
without the default config file fall back to the `.json` path. -/
theorem config_path_default_json_fallback_witness :
    (defaultServeSettings.configPath = defaultConfigPath
      ∧ noFileEnv.fileExists defaultServeSettings.configPath = false)
    ∧ effectiveConfigPath defaultServeSettings noFileEnv = "/etc/fulcio-config/config.json" :=
  ⟨⟨rfl, rfl⟩,
   (config_path_default_json_fallback defaultServeSettings noFileEnv).1 ⟨rfl, rfl⟩⟩

/-- C6: every HTTP client constructed for CT log submission has a request
timeout of exactly 30 seconds, in the custom-TLS-root configuration as well
as the default one. -/
theorem ct_http_client_timeout_thirty_seconds :
    ∀ (s : Settings) (env : Env) (c : CTClientCfg),
      buildCTClient s env = .ok (some c) → c.httpClient.timeoutSec = 30 := by
  intro s env c h
  exact ctHTTPClient_timeout s env _ (buildCTClient_some_spec s env c h).2.2.1

/-- Witness for C6 at a concrete input: the custom-TLS-root configuration
yields a 30-second timeout. -/
theorem ct_http_client_timeout_thirty_seconds_witness :
    buildCTClient ctPinnedSettings allOkEnv = .ok (some ctPinnedClient)
    ∧ ctPinnedClient.httpClient.timeoutSec = 30 :=
  ⟨rfl, ct_http_client_timeout_thirty_seconds ctPinnedSettings allOkEnv ctPinnedClient rfl⟩

/-- C5: when `ct-log-public-key-path` is non-empty, the bytes of the file
at that path become the CT client's pinned public key; when it is empty,
no public key is pinned. -/
theorem ct_log_public_key_pinned_iff_path_set :
    ∀ (s : Settings) (env : Env) (c : CTClientCfg),
      buildCTClient s env = .ok (some c) →
      (s.ctLogPublicKeyPath ≠ "" →
        ∃ pem, env.readFile s.ctLogPublicKeyPath = some pem ∧ c.opts.publicKey = some pem)
      ∧ (s.ctLogPublicKeyPath = "" → c.opts.publicKey = none) := by
  intro s env c h
  have hspec := ctPublicKeyOpt_spec s env _ (buildCTClient_some_spec s env c h).2.2.2
  exact ⟨hspec.2, hspec.1⟩

/-- Witness for C5 at a concrete input: with a pinned-key path set, the
file bytes end up as the client's public key. -/
theorem ct_log_public_key_pinned_iff_path_set_witness :
    buildCTClient ctPinnedSettings allOkEnv = .ok (some ctPinnedClient)
    ∧ ctPinnedSettings.ctLogPublicKeyPath ≠ ""
    ∧ ctPinnedClient.opts.publicKey = some "PEM BYTES" := by
  refine ⟨rfl, by decide, ?_⟩
  obtain ⟨pem, hr, hp⟩ :=
    (ct_log_public_key_pinned_iff_path_set ctPinnedSettings allOkEnv ctPinnedClient rfl).1
      (by decide)
  have hc : allOkEnv.readFile ctPinnedSettings.ctLogPublicKeyPath = some "PEM BYTES" := rfl
  rw [hr] at hc
  rw [hp, Option.some.inj hc]

/-- C1: the flag default of `ct-log-url` is the non-empty test-log URL; for
every completed server start, a CT log client exists if and only if the
effective `ct-log-url` is non-empty; and when it is empty no client exists,
so the (spec-modelled) issuance skips log submission and the response
carries no SCT and the certificate no SCT-list extension. -/
theorem ct_client_constructed_iff_ct_log_url_nonempty :
    defaultServeSettings.ctLogUrl = "http://localhost:6962/test"
    ∧ ∀ (s : Settings) (env : Env) (run : ServerRun),
        runServe s env = .ok run →
        ((run.ctClient.isSome = true ↔ s.ctLogUrl ≠ "")
         ∧ (s.ctLogUrl = "" →
             run.ctClient = none
             ∧ ∀ (now w : Nat) (b : List Nat),
                 (issueCertificate run.ctClient now w b).sct = none
                 ∧ (issueCertificate run.ctClient now w b).cert.sctListExtension = none)) := by
  refine ⟨rfl, ?_⟩
  intro s env run h
  have hct := runServe_ok_ctClient s env run h
  constructor
  · exact buildCTClient_ok_isSome s env run.ctClient hct
  · intro hurl
    have h0 : buildCTClient s env = .ok none := by simp [buildCTClient, hurl]
    rw [hct] at h0
    injection h0 with hnone
    refine ⟨hnone, ?_⟩
    intro now w b
    rw [hnone]
    exact ⟨rfl, rfl⟩

/-- Witness for C1 at a concrete input: an ephemeral-CA start with an empty
`ct-log-url` serves without a CT client and issues without an SCT. -/
theorem ct_client_constructed_iff_ct_log_url_nonempty_witness :
    runServe ephemeralNoCTSettings allOkEnv = .ok ephemeralNoCTRun
    ∧ (ephemeralNoCTRun.ctClient.isSome = true ↔ ephemeralNoCTSettings.ctLogUrl ≠ "")
    ∧ ephemeralNoCTRun.ctClient = none
    ∧ (issueCertificate ephemeralNoCTRun.ctClient 0 600 []).sct = none :=
  ⟨rfl,
   (ct_client_constructed_iff_ct_log_url_nonempty.2 ephemeralNoCTSettings allOkEnv
      ephemeralNoCTRun rfl).1,
   ((ct_client_constructed_iff_ct_log_url_nonempty.2 ephemeralNoCTSettings allOkEnv
      ephemeralNoCTRun rfl).2 rfl).1,
   (((ct_client_constructed_iff_ct_log_url_nonempty.2 ephemeralNoCTSettings allOkEnv
      ephemeralNoCTRun rfl).2 rfl).2 0 600 []).1⟩

/-- C2: if `--ca` is empty, names an unrecognized backend, or names a
backend whose required companion flags are unset, startup ends in
`log.Logger.Fatal` (non-zero exit) and no server ever begins serving. -/
theorem bad_ca_flags_fatal_before_serving :
    ∀ (s : Settings) (env : Env),
      (s.ca = ""
        ∨ s.ca ∉ ["googleca", "pkcs11ca", "fileca", "ephemeralca", "kmsca", "tinkca"]
        ∨ (s.ca = "pkcs11ca" ∧ s.hsmCarootIdSet = false)
        ∨ (s.ca = "googleca" ∧ s.gcpPrivateCaParentSet = false)
        ∨ (s.ca = "fileca" ∧ (s.filecaCertSet = false ∨ s.filecaKeySet = false
             ∨ s.filecaKeyPasswdSet = false))
        ∨ (s.ca = "kmsca" ∧ (s.kmsResourceSet = false ∨ s.kmsCertChainPathSet = false))
        ∨ (s.ca = "tinkca" ∧ (s.tinkKmsResourceSet = false ∨ s.tinkCertChainPathSet = false
             ∨ s.tinkKeysetPathSet = false)))
      → startupFatal (runServe s env) = true := by
  intro s env hbad
  have hnp : validateCAFlags s ≠ .passed := by
    intro hp
    rw [validateCAFlags_passed_char] at hp
    rcases hbad with h | h | ⟨h, hb⟩ | ⟨h, hb⟩ | ⟨h, hb⟩ | ⟨h, hb⟩ | ⟨h, hb⟩ <;>
      rcases hp with ⟨g, gb⟩ | ⟨g, gb⟩ | ⟨g, g1, g2, g3⟩ | ⟨g, g1, g2⟩ | ⟨g, g1, g2, g3⟩ | g <;>
        simp_all
  cases hv : validateCAFlags s with
  | passed => exact absurd hv hnp
  | fatal m =>
    unfold runServe
    rw [hv]
    rfl

/-- Witness for C2 at a concrete input: the default settings leave `--ca`
empty, so startup is fatal. -/
theorem bad_ca_flags_fatal_before_serving_witness :
    (defaultServeSettings.ca = ""
      ∨ defaultServeSettings.ca ∉ ["googleca", "pkcs11ca", "fileca", "ephemeralca", "kmsca", "tinkca"]
      ∨ (defaultServeSettings.ca = "pkcs11ca" ∧ defaultServeSettings.hsmCarootIdSet = false)
      ∨ (defaultServeSettings.ca = "googleca" ∧ defaultServeSettings.gcpPrivateCaParentSet = false)
      ∨ (defaultServeSettings.ca = "fileca" ∧ (defaultServeSettings.filecaCertSet = false
           ∨ defaultServeSettings.filecaKeySet = false
           ∨ defaultServeSettings.filecaKeyPasswdSet = false))
      ∨ (defaultServeSettings.ca = "kmsca" ∧ (defaultServeSettings.kmsResourceSet = false
           ∨ defaultServeSettings.kmsCertChainPathSet = false))
      ∨ (defaultServeSettings.ca = "tinkca" ∧ (defaultServeSettings.tinkKmsResourceSet = false
           ∨ defaultServeSettings.tinkCertChainPathSet = false
           ∨ defaultServeSettings.tinkKeysetPathSet = false)))
    ∧ startupFatal (runServe defaultServeSettings allOkEnv) = true :=
  ⟨Or.inl rfl,
   bad_ca_flags_fatal_before_serving defaultServeSettings allOkEnv (Or.inl rfl)⟩

/-- C8: any `--ca` value that passes the startup validation switch selects
one of the six handled branches of the CA-construction switch — the
`default:` branch (and its `invalid value for configured CA` error) is
unreachable. -/
theorem ca_construction_default_branch_unreachable :
    ∀ (s : Settings) (env : Env),
      validateCAFlags s = .passed →
      (caSwitchBranch s.ca).isSome = true
      ∧ constructCABackend s env ≠ .error invalidCAValueMsg := by
  intro s env hv
  rw [validateCAFlags_passed_char] at hv
  have hca : s.ca = "pkcs11ca" ∨ s.ca = "googleca" ∨ s.ca = "fileca" ∨ s.ca = "kmsca"
      ∨ s.ca = "tinkca" ∨ s.ca = "ephemeralca" := by tauto
  constructor
  · rcases hca with g | g | g | g | g | g <;> simp [caSwitchBranch, g]
  · intro hcontra
    rcases hca with g | g | g | g | g | g
    all_goals simp only [constructCABackend, g] at hcontra
    all_goals repeat' (split at hcontra)
    all_goals simp_all [invalidCAValueMsg]

/-- Witness for C8 at a concrete input: `--ca ephemeralca` passes
validation and selects the ephemeral branch. -/
theorem ca_construction_default_branch_unreachable_witness :
    validateCAFlags ephemeralSettings = .passed
    ∧ (caSwitchBranch ephemeralSettings.ca).isSome = true
    ∧ constructCABackend ephemeralSettings allOkEnv ≠ .error invalidCAValueMsg := by
  have h : validateCAFlags ephemeralSettings = .passed := by decide
  have h2 := ca_construction_default_branch_unreachable ephemeralSettings allOkEnv h
  exact ⟨h, h2.1, h2.2⟩

end Fulcio
